import Mathlib

/-!
Shallow embedding of `gretis_ess_connector/gog_webhook_handler.py`:
a change detector (`trigger_webhook_for_doc`, hooked on `validate` for
Attendance Request, Leave Application and Expense Claim via `hooks.py`)
and a background delivery worker (`send_request`) that POSTs a webhook
payload and records a `GOG Webhook Log` entry via `create_log`.

Host (Frappe) collaborator calls that can raise or return data are
modelled by an explicit environment; Python optional/missing string
fields are `Option String`, with `none` playing the role of `None`.
-/

namespace GretisESS

/-- Outcome of a call into the host runtime: a normal return value or a
raised exception identified by its traceback text. -/
inductive Res (α : Type) where
  | ok (val : α)
  | exn (trace : String)
  deriving DecidableEq, Repr

/-- The in-flight document as the `validate` hook sees it.  Field reads
through `doc.get` yield `Option String`; `none` models Python `None` or a
missing field. -/
structure Doc where
  doctype : String
  name : String
  is_new : Bool
  docstatus : Int
  status : Option String
  approval_status : Option String
  employee : Option String
  title : Option String
  from_date : Option String
  explanation : Option String
  deriving DecidableEq, Repr

/-- Dynamic field access, mirroring Python `doc.get(field)` for the fields
this app reads. -/
def Doc.get (d : Doc) : String → Option String
  | "status" => d.status
  | "approval_status" => d.approval_status
  | "employee" => d.employee
  | "title" => d.title
  | "from_date" => d.from_date
  | "explanation" => d.explanation
  | _ => none

/-- The `GOG Settings` singleton as read by `frappe.get_single`; the secret
is only reachable through the separate `get_password` accessor. -/
structure GOGSettings where
  enable_webhooks : Bool
  webhook_url : String
  deriving DecidableEq, Repr

/-- The `doc_info` snapshot dictionary built by the detector and passed to
the worker through the queue. -/
structure DocInfo where
  doctype : String
  name : String
  status : Option String
  approval_status : Option String
  employee : Option String
  title : Option String
  from_date : Option String
  explanation : Option String
  deriving DecidableEq, Repr

/-- The `settings_info` dictionary passed to the worker. -/
structure SettingsInfo where
  url : String
  secret : String
  deriving DecidableEq, Repr

/-- One `frappe.enqueue` call made by the detector. -/
structure EnqueueCall where
  doc_info : DocInfo
  settings_info : SettingsInfo
  deriving DecidableEq, Repr

/-- Behaviour of the host collaborators during one detector invocation:
each call either returns a value or raises. -/
structure Env where
  get_doc_before_save : Res (Option Doc)
  get_single : Res GOGSettings
  get_password : Res String
  enqueue : Res Unit
  deriving Repr

/-- Observable outcome of one detector invocation: `frappe.enqueue` calls
made, titles written to the process-wide error log via `frappe.log_error`,
and the traceback of an exception that escaped to the caller (if any). -/
structure TriggerOut where
  enqueued : List EnqueueCall
  error_log_titles : List String
  raised : Option String
  deriving DecidableEq, Repr

/-- Python truthiness of an optional string: `None` and the empty string
are falsy. -/
def truthy : Option String → Bool
  | none => false
  | some s => !(s == "")

/-- Python `a or b` on optional strings: `a` when truthy, otherwise `b`. -/
def py_or (a b : Option String) : Option String :=
  if truthy a then a else b

/-- The membership test `x in ["Approved", "Rejected"]` used by both the
detector and the worker. -/
def is_terminal (s : Option String) : Bool :=
  s == some "Approved" || s == some "Rejected"

/-- Status-field selection of the detector: `approval_status` for Expense
Claim, `status` for every other doctype. -/
def status_field (doctype : String) : String :=
  if doctype == "Expense Claim" then "approval_status" else "status"

/-- The `doc_info` dictionary literal built inside `trigger_webhook_for_doc`. -/
def build_doc_info (doc : Doc) : DocInfo :=
  { doctype := doc.doctype
    name := doc.name
    status := doc.get "status"
    approval_status := doc.get "approval_status"
    employee := doc.get "employee"
    title := doc.get "title"
    from_date := doc.get "from_date"
    explanation := doc.get "explanation" }

/-- The `try` block of `trigger_webhook_for_doc`: returns the enqueue
calls it performed, or the exception that a collaborator call raised. -/
def trigger_body (doc : Doc) (env : Env) : Res (List EnqueueCall) :=
  if !doc.is_new && doc.docstatus == 1 then
    match env.get_doc_before_save with
    | .exn tr => .exn tr
    | .ok none => .ok []
    | .ok (some old_doc) =>
      let sf := status_field doc.doctype
      let old_status := old_doc.get sf
      let new_status := doc.get sf
      if new_status != old_status && is_terminal new_status then
        match env.get_single with
        | .exn tr => .exn tr
        | .ok settings =>
          if !settings.enable_webhooks then .ok []
          else
            match env.get_password with
            | .exn tr => .exn tr
            | .ok secret =>
              match env.enqueue with
              | .exn tr => .exn tr
              | .ok _ =>
                .ok [{ doc_info := build_doc_info doc
                       settings_info := { url := settings.webhook_url, secret := secret } }]
      else .ok []
  else .ok []

/-- The detector `trigger_webhook_for_doc(doc, method)`: runs the try
block; any exception is caught and reported to `frappe.log_error` with the
title `GOG Webhook Enqueue Failed`, and nothing propagates to the caller. -/
def trigger_webhook_for_doc (doc : Doc) (env : Env) : TriggerOut :=
  match trigger_body doc env with
  | .ok calls => { enqueued := calls, error_log_titles := [], raised := none }
  | .exn _ =>
    { enqueued := [], error_log_titles := ["GOG Webhook Enqueue Failed"], raised := none }

/-- An outbound JSON object, as an ordered list of key/value pairs; a
`none` value is JSON `null`. -/
abbrev Payload := List (String × Option String)

/-- The HTTP request handed to `requests.post`. -/
structure HttpRequest where
  url : String
  headers : List (String × String)
  body : Payload
  timeout : Nat
  deriving DecidableEq, Repr

/-- What the network does with the POST: a response with a status code and
body text, or a raised exception (timeout, connection error, ...). -/
inductive HttpResult where
  | response (status_code : Nat) (text : String)
  | raised (trace : String)
  deriving DecidableEq, Repr

/-- A `GOG Webhook Log` record as written by `create_log`. -/
structure LogEntry where
  status : String
  reference_doctype : String
  reference_name : String
  request_payload : Payload
  response : String
  error_traceback : String
  deriving DecidableEq, Repr

/-- Observable outcome of one worker invocation: HTTP requests attempted
and log entries written. -/
structure SendOut where
  requests : List HttpRequest
  logs : List LogEntry
  deriving DecidableEq, Repr

/-- The `create_log` helper: one `GOG Webhook Log` record with the given
status, document reference, serialized payload, response text and
traceback (the last two default to the empty string in the source). -/
def create_log (status : String) (ref_doctype ref_name : String) (payload : Payload)
    (response_text : String) (tb : String) : LogEntry :=
  { status := status
    reference_doctype := ref_doctype
    reference_name := ref_name
    request_payload := payload
    response := response_text
    error_traceback := tb }

/-- The text of `traceback.format_exc()` for a caught exception: always a
non-empty string beginning with the traceback header. -/
def format_exc (msg : String) : String :=
  "Traceback (most recent call last): " ++ msg

/-- The exception message produced by `response.raise_for_status()` for a
4xx or 5xx status code. -/
def http_error_msg (code : Nat) : String :=
  "HTTPError: status " ++ toString code

/-- Whether `response.raise_for_status()` raises: it does exactly for
client errors (4xx) and server errors (5xx). -/
def raise_for_status_fails (code : Nat) : Bool :=
  if (400 ≤ code ∧ code < 500) ∨ (500 ≤ code ∧ code < 600) then true else false

/-- The kind-specific payload built by `send_request`; `none` for a
doctype the worker is not configured to handle. -/
def build_payload (d : DocInfo) : Option Payload :=
  if d.doctype == "Attendance Request" then
    some [("doctype", some d.doctype), ("employee", d.employee),
          ("status", d.status), ("from_date", d.from_date), ("explanation", d.explanation)]
  else if d.doctype == "Leave Application" then
    some [("doctype", some d.doctype), ("employee", d.employee), ("status", d.status)]
  else if d.doctype == "Expense Claim" then
    some [("doctype", some d.doctype), ("employee", d.employee),
          ("approval_status", d.approval_status), ("title", d.title)]
  else none

/-- The background worker `send_request(doc_info, settings_info)`.  It
re-checks `doc_info.get("status") or doc_info.get("approval_status")`
against the terminal list, builds the kind-specific payload, POSTs it with
the JSON and shared-secret headers and a 15 second timeout, raises for 4xx
and 5xx responses, and logs Success or Error accordingly. -/
def send_request (d : DocInfo) (s : SettingsInfo) (http : HttpResult) : SendOut :=
  let doc_status := py_or d.status d.approval_status
  if !is_terminal doc_status then { requests := [], logs := [] }
  else
    match build_payload d with
    | none => { requests := [], logs := [] }
    | some payload =>
      let req : HttpRequest :=
        { url := s.url
          headers := [("Content-Type", "application/json"),
                      ("x-webhook-secret", s.secret)]
          body := payload
          timeout := 15 }
      match http with
      | .raised tr =>
        { requests := [req]
          logs := [create_log "Error" d.doctype d.name payload "" (format_exc tr)] }
      | .response code text =>
        if raise_for_status_fails code then
          { requests := [req]
            logs := [create_log "Error" d.doctype d.name payload ""
                       (format_exc (http_error_msg code))] }
        else
          { requests := [req]
            logs := [create_log "Success" d.doctype d.name payload text ""] }

/-- The worker handles exactly the three doctypes of the detector's hook
registration in `hooks.py`. -/
def handled_doctype (k : String) : Bool :=
  k == "Attendance Request" || k == "Leave Application" || k == "Expense Claim"

/-! ### Helper lemmas -/

lemma format_exc_ne_empty (msg : String) : format_exc msg ≠ "" := by
  intro h
  have h2 := congrArg String.length h
  rw [format_exc, String.length_append] at h2
  simp at h2
  exact absurd h2.1 (by decide)

lemma raise_for_status_fails_iff (code : Nat) :
    raise_for_status_fails code = true ↔ (400 ≤ code ∧ code < 600) := by
  unfold raise_for_status_fails
  split <;> rename_i h
  · exact iff_of_true rfl (by omega)
  · exact iff_of_false (by simp) (by omega)

lemma build_payload_eq_none_iff (d : DocInfo) :
    build_payload d = none ↔ handled_doctype d.doctype = false := by
  unfold build_payload handled_doctype
  split <;> rename_i h1
  · simp_all
  · split <;> rename_i h2
    · simp_all
    · split <;> rename_i h3 <;> simp_all

/-- Inversion: if the try block of the detector performed an enqueue, every
guard along the way succeeded and the enqueue carried the snapshot and the
copied settings. -/
lemma trigger_body_enqueue_inv (doc : Doc) (env : Env) (calls : List EnqueueCall)
    (h : trigger_body doc env = Res.ok calls) (hne : calls ≠ []) :
    (!doc.is_new && doc.docstatus == 1) = true ∧
    ∃ old_doc settings secret,
      env.get_doc_before_save = Res.ok (some old_doc) ∧
      doc.get (status_field doc.doctype) ≠ old_doc.get (status_field doc.doctype) ∧
      is_terminal (doc.get (status_field doc.doctype)) = true ∧
      env.get_single = Res.ok settings ∧
      settings.enable_webhooks = true ∧
      env.get_password = Res.ok secret ∧
      env.enqueue = Res.ok Unit.unit ∧
      calls = [{ doc_info := build_doc_info doc
                 settings_info := { url := settings.webhook_url, secret := secret } }] := by
  obtain ⟨gd, gs, gp, gq⟩ := env
  unfold trigger_body at h
  by_cases hcond : (!doc.is_new && doc.docstatus == 1) = true
  · rw [if_pos hcond] at h
    refine ⟨hcond, ?_⟩
    cases gd with
    | exn tr => simp at h
    | ok o =>
      cases o with
      | none => simp at h; exact absurd h hne
      | some old_doc =>
        replace h :
            (if (doc.get (status_field doc.doctype) != old_doc.get (status_field doc.doctype) &&
                  is_terminal (doc.get (status_field doc.doctype))) = true then
              match gs with
              | Res.exn tr => Res.exn tr
              | Res.ok settings =>
                if (!settings.enable_webhooks) = true then Res.ok []
                else
                  match gp with
                  | Res.exn tr => Res.exn tr
                  | Res.ok secret =>
                    match gq with
                    | Res.exn tr => Res.exn tr
                    | Res.ok _ =>
                      Res.ok [{ doc_info := build_doc_info doc
                                settings_info := { url := settings.webhook_url,
                                                   secret := secret } }]
            else Res.ok []) = Res.ok calls := h
        by_cases hchange :
            (doc.get (status_field doc.doctype) != old_doc.get (status_field doc.doctype) &&
              is_terminal (doc.get (status_field doc.doctype))) = true
        · rw [if_pos hchange] at h
          rw [Bool.and_eq_true, bne_iff_ne] at hchange
          cases gs with
          | exn tr => simp at h
          | ok settings =>
            replace h :
                (if (!settings.enable_webhooks) = true then Res.ok []
                 else
                   match gp with
                   | Res.exn tr => Res.exn tr
                   | Res.ok secret =>
                     match gq with
                     | Res.exn tr => Res.exn tr
                     | Res.ok _ =>
                       Res.ok [{ doc_info := build_doc_info doc
                                 settings_info := { url := settings.webhook_url,
                                                    secret := secret } }]) = Res.ok calls := h
            by_cases hen : (!settings.enable_webhooks) = true
            · rw [if_pos hen] at h
              simp at h
              exact absurd h hne
            · rw [if_neg hen] at h
              simp only [Bool.not_eq_true, Bool.not_eq_false'] at hen
              cases gp with
              | exn tr => simp at h
              | ok secret =>
                cases gq with
                | exn tr => simp at h
                | ok u =>
                  simp only [Res.ok.injEq] at h
                  exact ⟨old_doc, settings, secret, rfl, hchange.1, hchange.2, rfl, hen,
                         rfl, rfl, h.symm⟩
        · rw [if_neg hchange] at h
          simp at h
          exact absurd h hne
  · rw [if_neg hcond] at h
    simp at h
    exact absurd h hne

/-- Inversion for the detector as a whole: a non-empty enqueue list comes
from a successful try block. -/
lemma trigger_enqueued_inv (doc : Doc) (env : Env)
    (hne : (trigger_webhook_for_doc doc env).enqueued ≠ []) :
    ∃ old_doc, env.get_doc_before_save = Res.ok (some old_doc) ∧
      doc.get (status_field doc.doctype) ≠ old_doc.get (status_field doc.doctype) ∧
      is_terminal (doc.get (status_field doc.doctype)) = true ∧
      ∃ settings, env.get_single = Res.ok settings ∧ settings.enable_webhooks = true := by
  unfold trigger_webhook_for_doc at hne
  split at hne
  · rename_i calls hb
    obtain ⟨-, old_doc, settings, secret, hgd, hneq, hterm, hgs, hen, -, -, -⟩ :=
      trigger_body_enqueue_inv doc env calls hb hne
    exact ⟨old_doc, hgd, hneq, hterm, settings, hgs, hen⟩
  · exact absurd rfl hne

/-- Inversion: an HTTP request attempted by the worker passed the terminal
re-validation and carries the built payload with the fixed headers, URL and
timeout. -/
lemma send_request_request_inv (d : DocInfo) (s : SettingsInfo) (http : HttpResult)
    (r : HttpRequest) (hr : r ∈ (send_request d s http).requests) :
    ∃ payload, build_payload d = some payload ∧
      is_terminal (py_or d.status d.approval_status) = true ∧
      r = { url := s.url
            headers := [("Content-Type", "application/json"),
                        ("x-webhook-secret", s.secret)]
            body := payload
            timeout := 15 } := by
  unfold send_request at hr
  by_cases hterm : (!is_terminal (py_or d.status d.approval_status)) = true
  · rw [if_pos hterm] at hr
    simp at hr
  · rw [if_neg hterm] at hr
    simp only [Bool.not_eq_true, Bool.not_eq_false'] at hterm
    cases hp : build_payload d with
    | none => rw [hp] at hr; simp at hr
    | some payload =>
      rw [hp] at hr
      refine ⟨payload, rfl, hterm, ?_⟩
      cases http with
      | raised tr => simp at hr; exact hr
      | response code text =>
        by_cases hfail : raise_for_status_fails code = true
        · simp [hfail] at hr; exact hr
        · simp [hfail] at hr; exact hr

/-- Inversion: a log entry written by the worker is the Success entry for a
non-raising 2xx or 3xx response, or the Error entry for a 4xx or 5xx
response, or the Error entry for a raised request exception; in each case
the re-validation passed and the payload was built. -/
lemma send_request_logs_inv (d : DocInfo) (s : SettingsInfo) (http : HttpResult)
    (e : LogEntry) (he : e ∈ (send_request d s http).logs) :
    ∃ payload, build_payload d = some payload ∧
      is_terminal (py_or d.status d.approval_status) = true ∧
      ((∃ code text, http = .response code text ∧ raise_for_status_fails code = false ∧
          e = create_log "Success" d.doctype d.name payload text "") ∨
       (∃ code text, http = .response code text ∧ raise_for_status_fails code = true ∧
          e = create_log "Error" d.doctype d.name payload ""
                (format_exc (http_error_msg code))) ∨
       (∃ tr, http = .raised tr ∧
          e = create_log "Error" d.doctype d.name payload "" (format_exc tr))) := by
  unfold send_request at he
  by_cases hterm : (!is_terminal (py_or d.status d.approval_status)) = true
  · rw [if_pos hterm] at he
    simp at he
  · rw [if_neg hterm] at he
    simp only [Bool.not_eq_true, Bool.not_eq_false'] at hterm
    cases hp : build_payload d with
    | none => rw [hp] at he; simp at he
    | some payload =>
      rw [hp] at he
      refine ⟨payload, rfl, hterm, ?_⟩
      cases http with
      | raised tr =>
        simp at he
        exact Or.inr (Or.inr ⟨tr, rfl, he⟩)
      | response code text =>
        by_cases hfail : raise_for_status_fails code = true
        · simp [hfail] at he
          exact Or.inr (Or.inl ⟨code, text, rfl, hfail, he⟩)
        · simp [hfail] at he
          simp only [Bool.not_eq_true] at hfail
          exact Or.inl ⟨code, text, rfl, hfail, he⟩

/-! ### Detector claims -/

/-- C4: for every document processed by the detector, a dispatch is
enqueued only if the new value of the kind-selected status attribute
(`approval_status` for Expense Claim, `status` otherwise) differs from the
prior value and the new value is Approved or Rejected; in particular,
re-saving with an unchanged status value enqueues zero dispatches. -/
theorem dispatch_only_on_terminal_transition (doc : Doc) (env : Env) :
    ((trigger_webhook_for_doc doc env).enqueued ≠ [] →
      ∃ old_doc, env.get_doc_before_save = Res.ok (some old_doc) ∧
        doc.get (status_field doc.doctype) ≠ old_doc.get (status_field doc.doctype) ∧
        is_terminal (doc.get (status_field doc.doctype)) = true) ∧
    (∀ old_doc, env.get_doc_before_save = Res.ok (some old_doc) →
      doc.get (status_field doc.doctype) = old_doc.get (status_field doc.doctype) →
      (trigger_webhook_for_doc doc env).enqueued = []) := by
  constructor
  · intro hne
    obtain ⟨o, h1, h2, h3, -⟩ := trigger_enqueued_inv doc env hne
    exact ⟨o, h1, h2, h3⟩
  · intro old_doc hgd heq
    by_contra hne
    obtain ⟨o, h1, h2, -, -⟩ := trigger_enqueued_inv doc env hne
    rw [hgd] at h1
    injection h1 with h1
    injection h1 with h1
    rw [← h1] at h2
    exact h2 heq

def c4_old : Doc :=
  { doctype := "Leave Application", name := "LA-0001", is_new := false, docstatus := 1
    status := some "Open", approval_status := none, employee := some "EMP-0002"
    title := none, from_date := none, explanation := none }

def c4_doc : Doc := { c4_old with status := some "Approved" }

def c4_env : Env :=
  { get_doc_before_save := Res.ok (some c4_old)
    get_single := Res.ok { enable_webhooks := true, webhook_url := "https://ess.example/hook" }
    get_password := Res.ok "s3cret"
    enqueue := Res.ok Unit.unit }

def c4_env_same : Env := { c4_env with get_doc_before_save := Res.ok (some c4_doc) }

/-- Witness: a Leave Application going Open to Approved satisfies the
transition condition, and re-saving it unchanged enqueues nothing. -/
theorem dispatch_only_on_terminal_transition_witness :
    (∃ old_doc, c4_env.get_doc_before_save = Res.ok (some old_doc) ∧
        c4_doc.get (status_field c4_doc.doctype) ≠ old_doc.get (status_field c4_doc.doctype) ∧
        is_terminal (c4_doc.get (status_field c4_doc.doctype)) = true) ∧
    (trigger_webhook_for_doc c4_doc c4_env_same).enqueued = [] :=
  ⟨(dispatch_only_on_terminal_transition c4_doc c4_env).1 (by decide),
   (dispatch_only_on_terminal_transition c4_doc c4_env_same).2 c4_doc rfl rfl⟩

/-- C6: if the master enable flag of `GOG Settings` is off, the detector
enqueues no dispatch, whatever the document and its status transition. -/
theorem disabled_webhooks_no_enqueue (doc : Doc) (env : Env) (settings : GOGSettings)
    (hs : env.get_single = Res.ok settings) (hoff : settings.enable_webhooks = false) :
    (trigger_webhook_for_doc doc env).enqueued = [] := by
  by_contra hne
  obtain ⟨o, -, -, -, s2, hs2, hen⟩ := trigger_enqueued_inv doc env hne
  rw [hs] at hs2
  injection hs2 with hs2
  rw [← hs2] at hen
  rw [hoff] at hen
  exact absurd hen (by decide)

def c6_doc : Doc :=
  { doctype := "Attendance Request", name := "ATT-0001", is_new := false, docstatus := 1
    status := some "Approved", approval_status := none, employee := some "EMP-0003"
    title := none, from_date := some "2024-01-02", explanation := some "forgot badge" }

def c6_env : Env :=
  { get_doc_before_save := Res.ok (some { c6_doc with status := some "Open" })
    get_single := Res.ok { enable_webhooks := false, webhook_url := "https://ess.example/hook" }
    get_password := Res.ok "s3cret"
    enqueue := Res.ok Unit.unit }

/-- Witness: with webhooks disabled, even an Open to Approved transition of
an Attendance Request enqueues nothing. -/
theorem disabled_webhooks_no_enqueue_witness :
    (trigger_webhook_for_doc c6_doc c6_env).enqueued = [] :=
  disabled_webhooks_no_enqueue c6_doc c6_env
    { enable_webhooks := false, webhook_url := "https://ess.example/hook" } rfl rfl

/-- C7: the detector never propagates an exception to the caller; whenever
its try block raises, the failure is reported to the process-wide error log
under the title `GOG Webhook Enqueue Failed`. -/
theorem detector_catches_all_failures (doc : Doc) (env : Env) :
    (trigger_webhook_for_doc doc env).raised = none ∧
    (∀ tr, trigger_body doc env = Res.exn tr →
      (trigger_webhook_for_doc doc env).error_log_titles = ["GOG Webhook Enqueue Failed"]) := by
  constructor
  · unfold trigger_webhook_for_doc
    cases trigger_body doc env with
    | ok calls => rfl
    | exn tr => rfl
  · intro tr htr
    unfold trigger_webhook_for_doc
    rw [htr]

def c7_doc : Doc :=
  { doctype := "Expense Claim", name := "EXP-0002", is_new := false, docstatus := 1
    status := none, approval_status := some "Approved", employee := some "EMP-0004"
    title := some "Hotel", from_date := none, explanation := none }

def c7_env : Env :=
  { get_doc_before_save := Res.ok (some { c7_doc with approval_status := some "Draft" })
    get_single := Res.ok { enable_webhooks := true, webhook_url := "https://ess.example/hook" }
    get_password := Res.ok "s3cret"
    enqueue := Res.exn "redis connection refused" }

/-- Witness: when `frappe.enqueue` raises, the save still sees no
exception and the failure lands in the process-wide error log. -/
theorem detector_catches_all_failures_witness :
    (trigger_webhook_for_doc c7_doc c7_env).raised = none ∧
    (trigger_webhook_for_doc c7_doc c7_env).error_log_titles = ["GOG Webhook Enqueue Failed"] :=
  ⟨(detector_catches_all_failures c7_doc c7_env).1,
   (detector_catches_all_failures c7_doc c7_env).2 "redis connection refused" (by decide)⟩

/-- C8: a newly created or non-submitted document is ignored
unconditionally, and a missing prior snapshot makes the detector abort
silently: no enqueue, no error-log record, nothing raised. -/
theorem new_or_unsubmitted_or_missing_prior_ignored (doc : Doc) (env : Env) :
    ((doc.is_new = true ∨ doc.docstatus ≠ 1) →
      trigger_webhook_for_doc doc env =
        { enqueued := [], error_log_titles := [], raised := none }) ∧
    (env.get_doc_before_save = Res.ok none →
      trigger_webhook_for_doc doc env =
        { enqueued := [], error_log_titles := [], raised := none }) := by
  have hbody : trigger_body doc env = Res.ok [] →
      trigger_webhook_for_doc doc env =
        { enqueued := [], error_log_titles := [], raised := none } := by
    intro h
    unfold trigger_webhook_for_doc
    rw [h]
  constructor
  · intro hcase
    apply hbody
    unfold trigger_body
    rw [if_neg]
    intro hcond
    rw [Bool.and_eq_true] at hcond
    rcases hcase with hnew | hds
    · rw [hnew] at hcond
      simp at hcond
    · have h2 := hcond.2
      rw [beq_iff_eq] at h2
      exact hds h2
  · intro hnone
    apply hbody
    unfold trigger_body
    by_cases hcond : (!doc.is_new && doc.docstatus == 1) = true
    · rw [if_pos hcond, hnone]
    · rw [if_neg hcond]

def c8_doc_new : Doc :=
  { doctype := "Leave Application", name := "LA-0002", is_new := true, docstatus := 0
    status := some "Approved", approval_status := none, employee := some "EMP-0005"
    title := none, from_date := none, explanation := none }

def c8_doc_old : Doc := { c8_doc_new with name := "LA-0003", is_new := false, docstatus := 1 }

def c8_env : Env :=
  { get_doc_before_save := Res.ok none
    get_single := Res.ok { enable_webhooks := true, webhook_url := "https://ess.example/hook" }
    get_password := Res.ok "s3cret"
    enqueue := Res.ok Unit.unit }

/-- Witness: a freshly created document is ignored, and a submitted one
with no prior snapshot aborts silently. -/
theorem new_or_unsubmitted_or_missing_prior_ignored_witness :
    trigger_webhook_for_doc c8_doc_new c8_env =
      { enqueued := [], error_log_titles := [], raised := none } ∧
    trigger_webhook_for_doc c8_doc_old c8_env =
      { enqueued := [], error_log_titles := [], raised := none } :=
  ⟨(new_or_unsubmitted_or_missing_prior_ignored c8_doc_new c8_env).1 (Or.inl rfl),
   (new_or_unsubmitted_or_missing_prior_ignored c8_doc_old c8_env).2 rfl⟩

/-! ### Worker computation lemmas -/

lemma send_request_response_error (d : DocInfo) (s : SettingsInfo) (code : Nat)
    (text : String) (payload : Payload) (hp : build_payload d = some payload)
    (hterm : is_terminal (py_or d.status d.approval_status) = true)
    (hfail : raise_for_status_fails code = true) :
    send_request d s (.response code text) =
      { requests := [{ url := s.url
                       headers := [("Content-Type", "application/json"),
                                   ("x-webhook-secret", s.secret)]
                       body := payload
                       timeout := 15 }]
        logs := [create_log "Error" d.doctype d.name payload ""
                   (format_exc (http_error_msg code))] } := by
  unfold send_request
  rw [hp]
  simp [hterm, hfail]

lemma send_request_response_success (d : DocInfo) (s : SettingsInfo) (code : Nat)
    (text : String) (payload : Payload) (hp : build_payload d = some payload)
    (hterm : is_terminal (py_or d.status d.approval_status) = true)
    (hfail : raise_for_status_fails code = false) :
    send_request d s (.response code text) =
      { requests := [{ url := s.url
                       headers := [("Content-Type", "application/json"),
                                   ("x-webhook-secret", s.secret)]
                       body := payload
                       timeout := 15 }]
        logs := [create_log "Success" d.doctype d.name payload text ""] } := by
  unfold send_request
  rw [hp]
  simp [hterm, hfail]

/-! ### Worker claims -/

def c1_doc : Doc :=
  { doctype := "Expense Claim", name := "EXP-0001", is_new := false, docstatus := 1
    status := some "Submitted", approval_status := some "Rejected"
    employee := some "EMP-0001", title := some "Travel", from_date := none
    explanation := none }

def c1_env : Env :=
  { get_doc_before_save := Res.ok (some { c1_doc with approval_status := some "Draft" })
    get_single := Res.ok { enable_webhooks := true, webhook_url := "https://ess.example/hook" }
    get_password := Res.ok "s3cret"
    enqueue := Res.ok Unit.unit }

/-- C1 (code bug): an Expense Claim whose `approval_status` went Draft to
Rejected while its generic `status` is the truthy non-terminal value
"Submitted" is enqueued by the detector, yet the worker's re-validation
reads `doc_info.get("status") or doc_info.get("approval_status")`, picks
"Submitted", aborts before any POST, and writes no log entry at all --
so even with the endpoint answering HTTP 500 there is no Error Log Entry,
against the spec scenario that demands exactly one. -/
theorem expense_claim_rejected_http500_drops_silently :
    (trigger_webhook_for_doc c1_doc c1_env).enqueued =
      [{ doc_info := build_doc_info c1_doc
         settings_info := { url := "https://ess.example/hook", secret := "s3cret" } }] ∧
    send_request (build_doc_info c1_doc)
        { url := "https://ess.example/hook", secret := "s3cret" }
        (.response 500 "Internal Server Error") = { requests := [], logs := [] } := by
  exact ⟨rfl, rfl⟩

def c2_info : DocInfo :=
  { doctype := "Leave Application", name := "LA-0004", status := some "Approved"
    approval_status := none, employee := some "EMP-0006", title := none
    from_date := none, explanation := none }

def c2_si : SettingsInfo := { url := "https://ess.example/hook", secret := "s3cret" }

/-- C2 counterexample: a 304 response is not a 2xx status, yet the worker
writes a Success Log Entry, because `raise_for_status` only raises for 4xx
and 5xx codes. -/
theorem success_logged_on_http304_counterexample :
    (send_request c2_info c2_si (.response 304 "Not Modified")).requests.length = 1 ∧
    ((send_request c2_info c2_si (.response 304 "Not Modified")).logs.map
        (fun e => e.status)) = ["Success"] ∧
    ¬ (200 ≤ 304 ∧ 304 < 300) :=
  ⟨rfl, rfl, by decide⟩

/-- C2 amended: when the worker performs the HTTP POST and receives a
response, it writes a Success Log Entry iff the response status code is
outside 400..599; any 4xx or 5xx status results in an Error Log Entry
being written instead. -/
theorem success_iff_not_4xx_5xx (d : DocInfo) (s : SettingsInfo) (code : Nat) (text : String)
    (hsent : (send_request d s (.response code text)).requests ≠ []) :
    ((∃ e ∈ (send_request d s (.response code text)).logs, e.status = "Success") ↔
      ¬ (400 ≤ code ∧ code < 600)) ∧
    ((400 ≤ code ∧ code < 600) →
      ∃ e ∈ (send_request d s (.response code text)).logs, e.status = "Error") := by
  obtain ⟨r, hr⟩ := List.exists_mem_of_ne_nil _ hsent
  obtain ⟨payload, hp, hterm, -⟩ := send_request_request_inv d s _ r hr
  by_cases hfail : raise_for_status_fails code = true
  · have hrange := (raise_for_status_fails_iff code).mp hfail
    rw [send_request_response_error d s code text payload hp hterm hfail]
    constructor
    · refine iff_of_false ?_ (not_not_intro hrange)
      rintro ⟨e, he, hst⟩
      rw [List.mem_singleton] at he
      subst he
      simp [create_log] at hst
    · intro _
      exact ⟨_, List.mem_singleton.mpr rfl, rfl⟩
  · rw [Bool.not_eq_true] at hfail
    have hrange : ¬ (400 ≤ code ∧ code < 600) := fun hc => by
      rw [(raise_for_status_fails_iff code).mpr hc] at hfail
      cases hfail
    rw [send_request_response_success d s code text payload hp hterm hfail]
    exact ⟨iff_of_true ⟨_, List.mem_singleton.mpr rfl, rfl⟩ hrange,
           fun hc => absurd hc hrange⟩

/-- Witness: with a 500 response the amended statement yields the Error
Log Entry. -/
theorem success_iff_not_4xx_5xx_witness :
    ∃ e ∈ (send_request c2_info c2_si (.response 500 "Internal Server Error")).logs,
      e.status = "Error" :=
  (success_iff_not_4xx_5xx c2_info c2_si 500 "Internal Server Error" (by decide)).2
    (by decide)

def c3_info : DocInfo :=
  { doctype := "Leave Application", name := "LA-0005", status := some "Open"
    approval_status := none, employee := some "EMP-0007", title := none
    from_date := none, explanation := none }

def c3_si : SettingsInfo := { url := "https://ess.example/hook", secret := "s3cret" }

/-- C3 counterexample: a worker invocation for a recognized kind whose
re-validated status is not terminal completes with zero log entries,
although the claim only excuses the unrecognized-kind short-circuit. -/
theorem no_log_on_nonterminal_revalidation_counterexample :
    send_request c3_info c3_si (.response 200 "OK") = { requests := [], logs := [] } ∧
    handled_doctype c3_info.doctype = true :=
  ⟨rfl, rfl⟩

/-- C3 amended: every completed worker invocation writes exactly one log
entry, except when it short-circuits before any network call because the
re-validated status (`status` if truthy, else `approval_status`) is not
terminal or because the document kind is not recognized, in which case it
writes none. -/
theorem log_count_characterization (d : DocInfo) (s : SettingsInfo) (http : HttpResult) :
    (send_request d s http).logs.length =
      (if is_terminal (py_or d.status d.approval_status) && handled_doctype d.doctype
       then 1 else 0) := by
  by_cases hterm : is_terminal (py_or d.status d.approval_status) = true
  · cases hp : build_payload d with
    | none =>
      have hnd : handled_doctype d.doctype = false := (build_payload_eq_none_iff d).mp hp
      unfold send_request
      simp [hterm, hnd, hp]
    | some payload =>
      have hnd : handled_doctype d.doctype = true := by
        by_contra hc
        rw [Bool.not_eq_true] at hc
        rw [(build_payload_eq_none_iff d).mpr hc] at hp
        cases hp
      cases http with
      | raised tr =>
        unfold send_request
        simp [hterm, hnd, hp]
      | response code text =>
        by_cases hfail : raise_for_status_fails code = true
        · rw [send_request_response_error d s code text payload hp hterm hfail]
          simp [hterm, hnd]
        · rw [Bool.not_eq_true] at hfail
          rw [send_request_response_success d s code text payload hp hterm hfail]
          simp [hterm, hnd]
  · rw [Bool.not_eq_true] at hterm
    unfold send_request
    simp [hterm]

/-- Field lists of the payload table in section 4.2 of the spec, one per
supported document kind. -/
def spec_payload_fields (kind : String) : List String :=
  if kind == "Attendance Request" then
    ["doctype", "employee", "status", "from_date", "explanation"]
  else if kind == "Leave Application" then
    ["doctype", "employee", "status"]
  else if kind == "Expense Claim" then
    ["doctype", "employee", "approval_status", "title"]
  else []

/-- C5: every payload the worker sends carries exactly the kind-specific
fields of the spec table, in order. -/
theorem payload_fields_match_spec (d : DocInfo) (s : SettingsInfo) (http : HttpResult)
    (r : HttpRequest) (hr : r ∈ (send_request d s http).requests) :
    r.body.map Prod.fst = spec_payload_fields d.doctype := by
  obtain ⟨payload, hp, -, hreq⟩ := send_request_request_inv d s http r hr
  subst hreq
  show payload.map Prod.fst = spec_payload_fields d.doctype
  unfold build_payload at hp
  unfold spec_payload_fields
  by_cases h1 : (d.doctype == "Attendance Request") = true
  · rw [if_pos h1] at hp
    rw [if_pos h1]
    injection hp with hp
    rw [← hp]
    rfl
  · rw [if_neg h1] at hp
    rw [if_neg h1]
    by_cases h2 : (d.doctype == "Leave Application") = true
    · rw [if_pos h2] at hp
      rw [if_pos h2]
      injection hp with hp
      rw [← hp]
      rfl
    · rw [if_neg h2] at hp
      rw [if_neg h2]
      by_cases h3 : (d.doctype == "Expense Claim") = true
      · rw [if_pos h3] at hp
        rw [if_pos h3]
        injection hp with hp
        rw [← hp]
        rfl
      · rw [if_neg h3] at hp
        cases hp

def c5_info : DocInfo :=
  { doctype := "Expense Claim", name := "EXP-0003", status := none
    approval_status := some "Approved", employee := some "EMP-0008"
    title := some "Meals", from_date := none, explanation := none }

def c5_si : SettingsInfo := { url := "https://ess.example/hook", secret := "s3cret" }

def c5_req : HttpRequest :=
  { url := "https://ess.example/hook"
    headers := [("Content-Type", "application/json"), ("x-webhook-secret", "s3cret")]
    body := [("doctype", some "Expense Claim"), ("employee", some "EMP-0008"),
             ("approval_status", some "Approved"), ("title", some "Meals")]
    timeout := 15 }

/-- Witness: the Expense Claim request body carries exactly the four
fields of the spec table. -/
theorem payload_fields_match_spec_witness :
    c5_req.body.map Prod.fst = spec_payload_fields "Expense Claim" :=
  payload_fields_match_spec c5_info c5_si (.response 200 "OK") c5_req (by decide)

/-- C9: every POST the worker attempts goes to the configured endpoint URL
with the JSON content-type header, the shared-secret header carrying the
configured secret, the built payload as body, and a 15 second timeout. -/
theorem request_wire_contract (d : DocInfo) (s : SettingsInfo) (http : HttpResult)
    (r : HttpRequest) (hr : r ∈ (send_request d s http).requests) :
    r.url = s.url ∧
    r.headers = [("Content-Type", "application/json"), ("x-webhook-secret", s.secret)] ∧
    r.timeout = 15 ∧
    ∃ payload, build_payload d = some payload ∧ r.body = payload := by
  obtain ⟨payload, hp, -, hreq⟩ := send_request_request_inv d s http r hr
  subst hreq
  exact ⟨rfl, rfl, rfl, payload, hp, rfl⟩

def c9_info : DocInfo :=
  { doctype := "Attendance Request", name := "ATT-0002", status := some "Rejected"
    approval_status := none, employee := some "EMP-0009", title := none
    from_date := some "2024-02-01", explanation := some "traffic" }

def c9_si : SettingsInfo := { url := "https://ess.example/endpoint", secret := "topsecret" }

def c9_req : HttpRequest :=
  { url := "https://ess.example/endpoint"
    headers := [("Content-Type", "application/json"), ("x-webhook-secret", "topsecret")]
    body := [("doctype", some "Attendance Request"), ("employee", some "EMP-0009"),
             ("status", some "Rejected"), ("from_date", some "2024-02-01"),
             ("explanation", some "traffic")]
    timeout := 15 }

/-- Witness: the wire contract at a concrete Attendance Request dispatch. -/
theorem request_wire_contract_witness :
    c9_req.url = c9_si.url ∧
    c9_req.headers = [("Content-Type", "application/json"), ("x-webhook-secret", c9_si.secret)] ∧
    c9_req.timeout = 15 ∧
    ∃ payload, build_payload c9_info = some payload ∧ c9_req.body = payload :=
  request_wire_contract c9_info c9_si (.raised "ConnectTimeout") c9_req (by decide)

/-- C10: every log entry the worker writes has status Success or Error; a
Success entry has an empty traceback and carries the built payload and the
response body; an Error entry has empty response text and carries the
payload together with a non-empty failure trace. -/
theorem log_entry_shape (d : DocInfo) (s : SettingsInfo) (http : HttpResult)
    (e : LogEntry) (he : e ∈ (send_request d s http).logs) :
    (e.status = "Success" ∨ e.status = "Error") ∧
    (e.status = "Success" →
      e.error_traceback = "" ∧
      (∃ payload, build_payload d = some payload ∧ e.request_payload = payload) ∧
      ∃ code text, http = .response code text ∧ e.response = text) ∧
    (e.status = "Error" →
      e.response = "" ∧ e.error_traceback ≠ "" ∧
      ∃ payload, build_payload d = some payload ∧ e.request_payload = payload) := by
  obtain ⟨payload, hp, -, hcases⟩ := send_request_logs_inv d s http e he
  rcases hcases with ⟨code, text, hh, -, he'⟩ | ⟨code, text, hh, -, he'⟩ | ⟨tr, hh, he'⟩
  · subst he'
    exact ⟨Or.inl rfl,
           fun _ => ⟨rfl, ⟨payload, hp, rfl⟩, code, text, hh, rfl⟩,
           fun hc => by simp [create_log] at hc⟩
  · subst he'
    exact ⟨Or.inr rfl,
           fun hc => by simp [create_log] at hc,
           fun _ => ⟨rfl, format_exc_ne_empty _, payload, hp, rfl⟩⟩
  · subst he'
    exact ⟨Or.inr rfl,
           fun hc => by simp [create_log] at hc,
           fun _ => ⟨rfl, format_exc_ne_empty _, payload, hp, rfl⟩⟩

def c10_info : DocInfo :=
  { doctype := "Leave Application", name := "LA-0006", status := some "Rejected"
    approval_status := none, employee := some "EMP-0010", title := none
    from_date := none, explanation := none }

def c10_si : SettingsInfo := { url := "https://ess.example/hook", secret := "s3cret" }

def c10_entry : LogEntry :=
  { status := "Success", reference_doctype := "Leave Application"
    reference_name := "LA-0006"
    request_payload := [("doctype", some "Leave Application"),
                        ("employee", some "EMP-0010"), ("status", some "Rejected")]
    response := "OK", error_traceback := "" }

/-- Witness: the entry logged for a 200 response has one of the two
statuses. -/
theorem log_entry_shape_witness :
    c10_entry.status = "Success" ∨ c10_entry.status = "Error" :=
  (log_entry_shape c10_info c10_si (.response 200 "OK") c10_entry (by decide)).1

end GretisESS
